/-
Verification of the Ycrawler crawler (src/ycrawler.py) against its
natural-language specification.

The Python source is shallowly embedded. Pure helpers (filename
sanitization, link extraction) become Lean functions over strings and
character lists. The stateful parts (fetch counter, created directories,
the report.csv ledger, the in-memory COLLECTED_STORIES list, files written
to disk) become explicit state passing over a CrawlState record. Network
behaviour is an oracle: each remote item is embedded as a tree node
carrying the outcome of its own fetch, and an environment function gives
the outcome of every save-mode fetch by URL. Exceptions that escape a
coroutine become Except.error.
-/
import Mathlib

set_option autoImplicit false

namespace Ycrawler

/-- Filesystem paths built by os.path.join. A path is either a configured
base directory (a raw string, e.g. "./data") or a story subdirectory
obtained by joining a parent directory with str(story_id). Embedding the
join structure (rather than concatenated strings) keeps path equality
equal to component equality. -/
inductive Dir where
  | base (p : String)
  | sub (parent : Dir) (storyId : Nat)
deriving DecidableEq, Repr

/-- The mutable state of one crawler process:
fetchCounter is URLFetcher.fetch_counter of the current fetcher instance;
dirs records every directory created by os.makedirs in get_path_of_story,
in creation order; reports records every row appended to a report.csv
file, as (directory holding the report file, story id, story title), in
append order; collected is the global COLLECTED_STORIES list; files
records every write performed by save_content_to_disk, as
((directory, filename), content), in write order (a later write to the
same key overwrites: mode "wb+" truncates). -/
structure CrawlState where
  fetchCounter : Nat
  dirs : List Dir
  reports : List (Dir × Nat × String)
  collected : List Nat
  files : List ((Dir × String) × String)
deriving DecidableEq, Repr

/-- A fresh process over an empty base directory: nothing fetched,
no directories, an absent (hence empty) report file, empty
COLLECTED_STORIES, no files written. -/
def cleanState : CrawlState := ⟨0, [], [], [], []⟩

/-- The characters removed from a URL when deriving a save filename:
the character class of re.sub(r"[?:*<>,; /\\]", '', url) in
save_content_to_disk (line 67). -/
def filename_strip_chars : List Char :=
  ['?', ':', '*', '<', '>', ',', ';', ' ', '/', '\\']

/-- Filename derivation of save_content_to_disk (lines 67-68): remove
every occurrence of the unsafe characters, then keep the first 20
characters (filename[:20]). -/
def save_filename (url : String) : String :=
  String.mk ((url.data.filter (fun c => !(filename_strip_chars.contains c))).take 20)

/-- save_content_to_disk (lines 54-70): if the body is None, log at debug
level and write nothing; otherwise write the body to
dest_dir/save_filename(url), truncating any previous content at that
path (open mode "wb+"). -/
def save_content_to_disk (resp_bytes : Option String) (url : String) (dest_dir : Dir)
    (s : CrawlState) : CrawlState :=
  match resp_bytes with
  | none => s
  | some b => { s with files := s.files ++ [((dest_dir, save_filename url), b)] }

/-- Content visible at a (directory, filename) key: the last write wins
(each write truncates the file first). -/
def read_file (s : CrawlState) (k : Dir × String) : Option String :=
  ((s.files.filter (fun e => decide (e.1 = k))).map (fun e => e.2)).getLast?

/-- get_path_of_story (lines 73-92): path = os.path.join(dest_dir,
str(story_id)); if the path does not exist, create the directory, append
story_id to COLLECTED_STORIES, and append the row [story_id, story_title]
to dest_dir/report.csv; either way return the path. The Python body has
no await point, so under the event loop it runs atomically; the embedding
is the same single-step state update. -/
def get_path_of_story (dest_dir : Dir) (story_title : String) (story_id : Nat)
    (s : CrawlState) : CrawlState × Dir :=
  let path := Dir.sub dest_dir story_id
  if path ∈ s.dirs then (s, path)
  else
    ({ s with
        dirs := s.dirs ++ [path],
        collected := s.collected ++ [story_id],
        reports := s.reports ++ [(dest_dir, story_id, story_title)] }, path)

/-- load_processed_stories_list (lines 95-110): read story_dir/report.csv
if it exists and return the ids int(row[0]) of its rows in order; an
absent file yields the empty list. In the embedding the rows of the
report file of a directory are the reports entries keyed by that
directory. -/
def load_processed_stories_list (story_dir : Dir) (s : CrawlState) : List Nat :=
  (s.reports.filter (fun r => decide (r.1 = story_dir))).map (fun r => r.2.1)

/-- html.unescape restricted to the named and numeric character
references produced by HTML escaping of text bodies (the output alphabet
of html.escape): amp, lt, gt, quot, and the apostrophe references. Like
the library function it replaces in a single left-to-right pass. -/
def html_unescape_chars : List Char → List Char
  | [] => []
  | '&' :: 'a' :: 'm' :: 'p' :: ';' :: rest => '&' :: html_unescape_chars rest
  | '&' :: 'l' :: 't' :: ';' :: rest => '<' :: html_unescape_chars rest
  | '&' :: 'g' :: 't' :: ';' :: rest => '>' :: html_unescape_chars rest
  | '&' :: 'q' :: 'u' :: 'o' :: 't' :: ';' :: rest => '"' :: html_unescape_chars rest
  | '&' :: '#' :: 'x' :: '2' :: '7' :: ';' :: rest => '\'' :: html_unescape_chars rest
  | '&' :: '#' :: '3' :: '9' :: ';' :: rest => '\'' :: html_unescape_chars rest
  | c :: rest => c :: html_unescape_chars rest

/-- String wrapper for html_unescape_chars. -/
def html_unescape (s : String) : String := String.mk (html_unescape_chars s.data)

/-- Matcher for the literal tail of REFERENCES_REGEXP: at the current
position require the literal chars of href preceded by one space and
followed by the equals sign and an opening double quote, then capture
greedily up to a mandatory closing double quote. Returns the capture and
the characters after the closing quote. -/
def try_href_at : List Char → Option (List Char × List Char)
  | ' ' :: 'h' :: 'r' :: 'e' :: 'f' :: '=' :: '"' :: rest =>
    let cap := rest.takeWhile (fun c => c != '"')
    match rest.dropWhile (fun c => c != '"') with
    | '"' :: after => some (cap, after)
    | _ => none
  | _ => none

/-- Greedy backtracking of the middle part of REFERENCES_REGEXP: the
class matching any run of characters other than a closing angle bracket
first consumes as much as possible, then backs off until the href
literal matches; so the href literal is matched at the largest feasible
offset. Offsets n, n-1, ..., 0 are tried in that order. -/
def best_href (cs : List Char) : Nat → Option (List Char × List Char)
  | 0 => try_href_at cs
  | Nat.succ m =>
    match try_href_at (cs.drop (Nat.succ m)) with
    | some r => some r
    | none => best_href cs m

/-- Matching of REFERENCES_REGEXP at the head of the character list: the
literal open-anchor chars, then the greedy middle run bounded by the
first closing angle bracket, then the href capture. -/
def match_anchor_at : List Char → Option (List Char × List Char)
  | '<' :: 'a' :: rest => best_href rest ((rest.takeWhile (fun c => c != '>')).length)
  | _ => none

/-- re.findall(REFERENCES_REGEXP, text): scan left to right; at each
position try the anchor pattern; on a match, emit the capture and resume
after the match (non-overlapping); otherwise advance one character. The
fuel argument bounds the scan; one unit per consumed character, so the
length of the input is always sufficient. -/
def find_refs_aux : Nat → List Char → List String
  | 0, _ => []
  | Nat.succ _, [] => []
  | Nat.succ fuel, c :: cs =>
    match match_anchor_at (c :: cs) with
    | some (cap, rest) => String.mk cap :: find_refs_aux fuel rest
    | none => find_refs_aux fuel cs

/-- re.findall(REFERENCES_REGEXP, text) over a string. -/
def find_refs (text : String) : List String := find_refs_aux text.data.length text.data

/-- The canonical story page URL, STORY_URL_TEMPLATE.format(post_id). -/
def story_page_url (post_id : Nat) : String :=
  "https://news.ycombinator.com/item?id=" ++ toString post_id

/-- The item API URL, URL_TEMPLATE.format(post_id). -/
def item_api_url (post_id : Nat) : String :=
  "https://hacker-news.firebaseio.com/v0/item/" ++ toString post_id ++ ".json"

/-- Outcome of one save-mode invocation of URLFetcher.fetch (lines 36-51,
with dest_dir set), determined by the network for the given URL:

ok body — the GET succeeds within the deadline and response.read() yields
body (none embeds an absent body, which save_content_to_disk skips);

caughtTimeout — an asyncio.TimeoutError is raised at the await point
inside the try block (aiohttp's own ServerTimeoutError and friends are
subclasses); the except clause catches it, logs, and fetch returns None;

timeout — the FETCH_TIMEOUT deadline of the enclosing
async_timeout.timeout block expires. The block cancels the awaiting task
(a CancelledError, matched by no clause of the inner try) and raises
asyncio.TimeoutError from its own exit, lexically outside the try, so the
error propagates out of fetch to the caller. -/
inductive LinkFetch where
  | ok (body : Option String)
  | caughtTimeout
  | timeout
deriving DecidableEq

/-- URLFetcher.fetch with dest_dir (save mode): the counter is
incremented first (before any await, so in every outcome), then the
response body is saved via save_content_to_disk, a caught timeout is
absorbed into a plain return, and an uncaught timeout escapes as an
exception (Except.error). -/
def fetch_save (env : String → LinkFetch) (url : String) (dest_dir : Dir)
    (s : CrawlState) : CrawlState × Except Unit Unit :=
  let s1 := { s with fetchCounter := s.fetchCounter + 1 }
  match env url with
  | LinkFetch.ok body => (save_content_to_disk body url dest_dir s1, Except.ok ())
  | LinkFetch.caughtTimeout => (s1, Except.ok ())
  | LinkFetch.timeout => (s1, Except.error ())

/-- Outcome of one JSON-mode invocation of URLFetcher.fetch for an item:
ok — the GET succeeds and response.json() parses to an object;
null — the GET succeeds and the body is JSON null (unresolvable id);
caughtTimeout — as in LinkFetch: caught inside fetch, which returns None;
timeout — as in LinkFetch: the deadline TimeoutError escapes fetch. -/
inductive FetchKind where
  | ok
  | null
  | caughtTimeout
  | timeout
deriving DecidableEq

/-- URLFetcher.fetch in JSON mode, as seen by get_page_with_references:
counter incremented in every outcome; the Bool tells whether a non-null
response object was returned (the caller reads its fields from the item
tree node). -/
def fetch_item_step (fk : FetchKind) (s : CrawlState) : CrawlState × Except Unit Bool :=
  let s1 := { s with fetchCounter := s.fetchCounter + 1 }
  match fk with
  | FetchKind.ok => (s1, Except.ok true)
  | FetchKind.null => (s1, Except.ok false)
  | FetchKind.caughtTimeout => (s1, Except.ok false)
  | FetchKind.timeout => (s1, Except.error ())

/-- One remote item together with the outcome of fetching it: post_id is
the id the node is fetched under; fk the outcome of that fetch; the
optional fields itype, title, iurl, text embed the JSON fields "type",
"title", "url", "text" (none = key absent), meaningful when fk is ok;
kids embeds the "kids" field: none = key absent, some ks = the list of
child items in order, each embedded recursively. -/
inductive ItemTree where
  | mk (post_id : Nat) (fk : FetchKind) (itype : Option String) (title : Option String)
       (iurl : Option String) (text : Option String) (kids : Option (List ItemTree))

/-- Collecting the results of asyncio.gather over recursive tasks: if
every task returned a pair, the list of pairs; if any task raised, none
(gather re-raises the exception in the awaiting parent; sibling tasks
have already been run, so their state effects stand). -/
def collect_ok : List (Except Unit (Nat × Nat)) → Option (List (Nat × Nat))
  | [] => some []
  | Except.ok c :: rest => (collect_ok rest).map (fun cs => c :: cs)
  | Except.error _ :: _ => none

/-- Final aggregation of get_page_with_references (lines 149-163):
number_of_comments = number of direct kids plus the sum of the kids'
first components; number_of_refs = this post's own reference count plus
the sum of the kids' second components; an exception from any kid
propagates. -/
def combine_results (nkids own_refs : Nat) (rs : List (Except Unit (Nat × Nat))) :
    Except Unit (Nat × Nat) :=
  match collect_ok rs with
  | none => Except.error ()
  | some cs =>
    Except.ok (nkids + (cs.map Prod.fst).sum, own_refs + (cs.map Prod.snd).sum)

/-- The gathered link fetches of the comment branch (lines 146-147): run
every fetch (each bumps the counter and may save a file), and report
whether any of them raised; gather re-raises in the parent after the
tasks have run. -/
def run_saves (env : String → LinkFetch) : List String → Dir → CrawlState → CrawlState × Bool
  | [], _, s => (s, false)
  | u :: us, d, s =>
    let p1 := fetch_save env u d s
    let p2 := run_saves env us d p1.1
    (p2.1, p2.2 || (match p1.2 with | Except.ok _ => false | Except.error _ => true))

mutual

/-- get_page_with_references (lines 113-163). Fetch the item; a
propagating fetch exception aborts the call; a None response (null body
or caught timeout) or an absent kids field returns (0, 0); a story
resolves its URL, creates/looks up its directory (which becomes the
story_dir of the subtree), and fetch-saves the story page, an exception
from that fetch propagating; a comment extracts the distinct hrefs from
its unescaped text, fetch-saves each into story_dir, an exception from
any of them propagating after all have run; then the kids are walked
recursively and the counts aggregated. -/
def get_page_with_references (env : String → LinkFetch) (t : ItemTree) (story_dir : Dir)
    (s : CrawlState) : CrawlState × Except Unit (Nat × Nat) :=
  match t with
  | ItemTree.mk post_id fk itype title iurl text kidsField =>
    let p0 := fetch_item_step fk s
    match p0.2 with
    | Except.error e => (p0.1, Except.error e)
    | Except.ok false => (p0.1, Except.ok (0, 0))
    | Except.ok true =>
      match kidsField with
      | none => (p0.1, Except.ok (0, 0))
      | some ks =>
        if itype = some "story" then
          let story_url := iurl.getD (story_page_url post_id)
          let p1 := get_path_of_story story_dir (title.getD "untitled") post_id p0.1
          let p2 := fetch_save env story_url p1.2 p1.1
          match p2.2 with
          | Except.error e => (p2.1, Except.error e)
          | Except.ok _ =>
            let p3 := walk_kids env ks p1.2 p2.1
            (p3.1, combine_results ks.length 0 p3.2)
        else if itype = some "comment" then
          let refs := (find_refs (html_unescape (text.getD ""))).eraseDups
          let p1 := run_saves env refs story_dir p0.1
          if p1.2 then (p1.1, Except.error ())
          else
            let p2 := walk_kids env ks story_dir p1.1
            (p2.1, combine_results ks.length refs.length p2.2)
        else
          let p1 := walk_kids env ks story_dir p0.1
          (p1.1, combine_results ks.length 0 p1.2)
termination_by structural t

/-- The gathered recursive tasks over a list of kids (lines 153-157):
each kid is walked in turn (the event loop interleaves them, but every
state effect of every task happens, and the aggregate is
order-independent), and all results are collected. -/
def walk_kids (env : String → LinkFetch) (ts : List ItemTree) (story_dir : Dir)
    (s : CrawlState) : CrawlState × List (Except Unit (Nat × Nat)) :=
  match ts with
  | [] => (s, [])
  | t :: rest =>
    let p1 := get_page_with_references env t story_dir s
    let p2 := walk_kids env rest story_dir p1.1
    (p2.1, p1.2 :: p2.2)
termination_by structural ts

end

/-- Outcome of the top-list fetch of a cycle (line 185): ok ids — the
JSON array of ids; null — a null body, so fetch returns None and slicing
None at line 191 raises a TypeError outside the try block; caughtTimeout
— fetch catches the timeout and returns None, with the same TypeError
downstream; timeout — the deadline TimeoutError escapes fetch inside the
try block, is logged and re-raised. In every non-ok case the exception
propagates out of the cycle to the poll loop. -/
inductive TopFetch where
  | ok (ids : List Nat)
  | null
  | caughtTimeout
  | timeout

/-- The launch filter of lines 190-192: the first limit ids of the
top-list response, keeping those not in COLLECTED_STORIES at
task-creation time. -/
def launch_set (ids : List Nat) (limit : Nat) (collected : List Nat) : List Nat :=
  (ids.take limit).filter (fun post_id => !(collected.contains post_id))

/-- Whether any gathered traversal raised (the gather at line 195
re-raises it; the except clause logs and re-raises again). -/
def any_raised (rs : List (Except Unit (Nat × Nat))) : Bool :=
  rs.any (fun r => match r with | Except.error _ => true | Except.ok _ => false)

/-- get_top_stories_with_references (lines 166-204): a fresh URLFetcher
(fetch_counter starts at 0 for this cycle); one fetch of the top-stories
URL; on a non-ok outcome the cycle aborts with the propagating exception;
otherwise one traversal task per not-yet-collected id among the first
limit ids, all gathered against the same base path (world maps each id to
its remote item tree); an exception from any traversal aborts the cycle
after the launched tasks have run; on success the cycle returns the
cycle's fetch counter. -/
def get_top_stories_with_references (env : String → LinkFetch) (world : Nat → ItemTree)
    (top : TopFetch) (limit : Nat) (path : Dir) (s : CrawlState) :
    CrawlState × Except Unit Nat :=
  let s0 := { s with fetchCounter := 0 }
  let s1 := { s0 with fetchCounter := s0.fetchCounter + 1 }
  match top with
  | TopFetch.timeout => (s1, Except.error ())
  | TopFetch.null => (s1, Except.error ())
  | TopFetch.caughtTimeout => (s1, Except.error ())
  | TopFetch.ok ids =>
    let launch := launch_set ids limit s1.collected
    let p := walk_kids env (launch.map world) path s1
    if any_raised p.2 then (p.1, Except.error ())
    else (p.1, Except.ok p.1.fetchCounter)

/-- A sequence of Story Store operations against one destination
directory: each operation is a (title, id) pair passed to
get_path_of_story. -/
def run_store_ops (d : Dir) (ops : List (String × Nat)) (s : CrawlState) : CrawlState :=
  ops.foldl (fun st op => (get_path_of_story d op.1 op.2 st).1) s

/-- Story Store well-formedness at one destination directory d: the
created directories are exactly (and in the order of) the ledger rows,
every ledger row was appended for destination d, and the recorded ids
are duplicate-free. Holds for cleanState and is preserved by
get_path_of_story at d. -/
def StoreInv (d : Dir) (s : CrawlState) : Prop :=
  s.dirs = s.reports.map (fun r => Dir.sub r.1 r.2.1)
    ∧ (∀ r ∈ s.reports, r.1 = d)
    ∧ (s.reports.map (fun r => r.2.1)).Nodup

/-- Global Story Store well-formedness (destinations may differ, as they
do for story items nested below another story): directories correspond
one-to-one and in order to ledger rows, COLLECTED_STORIES mirrors the
row ids, and no directory was created twice. -/
def StoreOK (s : CrawlState) : Prop :=
  s.dirs = s.reports.map (fun r => Dir.sub r.1 r.2.1)
    ∧ s.collected = s.reports.map (fun r => r.2.1)
    ∧ s.dirs.Nodup

/-- Configuration of an aiohttp TCPConnector: limit is the total ceiling
on simultaneous connections (default 100; 0 means unlimited), and
limit_per_host the ceiling per (host, port, ssl) key (default 0, i.e.
none). This embeds the documented admission rule of the third-party
connector the crawler instantiates. -/
structure TCPConnectorCfg where
  limit : Nat
  limit_per_host : Nat
deriving DecidableEq, Repr

/-- The connector the crawler builds at line 179:
TCPConnector(limit_per_host=connections_limit), leaving the total limit
at its default of 100. -/
def crawler_connector (connections_limit : Nat) : TCPConnectorCfg :=
  { limit := 100, limit_per_host := connections_limit }

/-- Admission rule of the connector: a new request to host h may start
iff the total outstanding count is under the total limit and the
outstanding count for h is under the per-host limit (a limit of 0
disables the corresponding check). -/
def admits (cfg : TCPConnectorCfg) (outstanding : List String) (h : String) : Bool :=
  (decide (cfg.limit = 0) || decide (outstanding.length < cfg.limit))
    && (decide (cfg.limit_per_host = 0) || decide (outstanding.count h < cfg.limit_per_host))

/-- States of the connector gate reachable from idle: the outstanding
multiset (as a list of hosts) starts empty, grows by an admitted request,
and shrinks when any outstanding request finishes. -/
inductive GateReachable (cfg : TCPConnectorCfg) : List String → Prop where
  | init : GateReachable cfg []
  | acquire (h : String) (o : List String) :
      GateReachable cfg o → admits cfg o h = true → GateReachable cfg (h :: o)
  | release (o₁ o₂ : List String) (h : String) :
      GateReachable cfg (o₁ ++ h :: o₂) → GateReachable cfg (o₁ ++ o₂)

/-- The value component of a traversal. It is independent of the ambient
state and of the destination directory (they influence only where
artifacts land), so it is read off at reference arguments. -/
def walk_result (env : String → LinkFetch) (t : ItemTree) : Except Unit (Nat × Nat) :=
  (get_page_with_references env t (Dir.base "") cleanState).2

/-- The reference count contributed by one post itself: the number of
distinct extracted links of a comment (len(set(re.findall(...))) at
lines 144-145), and 0 for every other kind. -/
def own_ref_count (itype text : Option String) : Nat :=
  if itype = some "comment" then ((find_refs (html_unescape (text.getD ""))).eraseDups).length
  else 0

/-- The comment body of the specification's reference-counting example:
exactly two distinct anchor hrefs. -/
def two_link_text : String :=
  "<a href=\"https://a.com\">x</a><a href=\"https://b.com\">y</a>"

/- ------------------------------------------------------------------ -/
/- Theorems.                                                           -/
/- ------------------------------------------------------------------ -/

/-- URLFetcher.fetch touches the state only through the counter
increment, which precedes the first await point and therefore happens in
every outcome. -/
theorem fetch_item_step_fst (fk : FetchKind) (s : CrawlState) :
    (fetch_item_step fk s).1 = { s with fetchCounter := s.fetchCounter + 1 } := by
  cases fk <;> rfl

/-- The outcome of a JSON-mode fetch depends only on the network, not on
the crawler state. -/
theorem fetch_item_step_snd_indep (fk : FetchKind) (s s' : CrawlState) :
    (fetch_item_step fk s).2 = (fetch_item_step fk s').2 := by
  cases fk <;> rfl

/-- The outcome of a save-mode fetch depends only on the network answer
for its URL. -/
theorem fetch_save_snd_indep (env : String → LinkFetch) (url : String) (d d' : Dir)
    (s s' : CrawlState) : (fetch_save env url d s).2 = (fetch_save env url d' s').2 := by
  cases henv : env url <;> simp [fetch_save, henv]

/-- A save-mode fetch whose network answer is not the propagating
timeout returns normally. -/
theorem fetch_save_ok_of_ne_timeout (env : String → LinkFetch) (url : String) (d : Dir)
    (s : CrawlState) (h : env url ≠ LinkFetch.timeout) :
    (fetch_save env url d s).2 = Except.ok () := by
  cases henv : env url <;> simp [fetch_save, henv] at h ⊢

/-- Saving a body writes a file and nothing else. -/
theorem save_content_to_disk_fetchCounter (b : Option String) (u : String) (d : Dir)
    (s : CrawlState) : (save_content_to_disk b u d s).fetchCounter = s.fetchCounter := by
  cases b <;> rfl

/-- Saving a body leaves the directory list unchanged. -/
theorem save_content_to_disk_dirs (b : Option String) (u : String) (d : Dir)
    (s : CrawlState) : (save_content_to_disk b u d s).dirs = s.dirs := by
  cases b <;> rfl

/-- Saving a body leaves the ledger rows unchanged. -/
theorem save_content_to_disk_reports (b : Option String) (u : String) (d : Dir)
    (s : CrawlState) : (save_content_to_disk b u d s).reports = s.reports := by
  cases b <;> rfl

/-- Saving a body leaves COLLECTED_STORIES unchanged. -/
theorem save_content_to_disk_collected (b : Option String) (u : String) (d : Dir)
    (s : CrawlState) : (save_content_to_disk b u d s).collected = s.collected := by
  cases b <;> rfl

/-- Every save-mode fetch bumps the counter exactly once, in every
outcome. -/
theorem fetch_save_fetchCounter (env : String → LinkFetch) (url : String) (d : Dir)
    (s : CrawlState) : (fetch_save env url d s).1.fetchCounter = s.fetchCounter + 1 := by
  cases henv : env url <;>
    simp [fetch_save, henv, save_content_to_disk_fetchCounter]

/-- A save-mode fetch creates no directory. -/
theorem fetch_save_dirs (env : String → LinkFetch) (url : String) (d : Dir)
    (s : CrawlState) : (fetch_save env url d s).1.dirs = s.dirs := by
  cases henv : env url <;> simp [fetch_save, henv, save_content_to_disk_dirs]

/-- A save-mode fetch appends no ledger row. -/
theorem fetch_save_reports (env : String → LinkFetch) (url : String) (d : Dir)
    (s : CrawlState) : (fetch_save env url d s).1.reports = s.reports := by
  cases henv : env url <;> simp [fetch_save, henv, save_content_to_disk_reports]

/-- A save-mode fetch leaves COLLECTED_STORIES unchanged. -/
theorem fetch_save_collected (env : String → LinkFetch) (url : String) (d : Dir)
    (s : CrawlState) : (fetch_save env url d s).1.collected = s.collected := by
  cases henv : env url <;> simp [fetch_save, henv, save_content_to_disk_collected]

/-- get_path_of_story always returns the joined path, whether or not it
created the directory. -/
theorem get_path_of_story_snd (d : Dir) (t : String) (id : Nat) (s : CrawlState) :
    (get_path_of_story d t id s).2 = Dir.sub d id := by
  simp only [get_path_of_story]
  split <;> rfl

/-- get_path_of_story performs no fetch. -/
theorem get_path_of_story_fetchCounter (d : Dir) (t : String) (id : Nat) (s : CrawlState) :
    (get_path_of_story d t id s).1.fetchCounter = s.fetchCounter := by
  simp only [get_path_of_story]
  split <;> rfl

/-- The gathered link fetches raise or not independently of the starting
state and destination. -/
theorem run_saves_snd_indep (env : String → LinkFetch) (us : List String) (d d' : Dir)
    (s s' : CrawlState) : (run_saves env us d s).2 = (run_saves env us d' s').2 := by
  induction us generalizing s s' with
  | nil => rfl
  | cons u rest ih =>
    simp only [run_saves]
    rw [ih (fetch_save env u d s).1 (fetch_save env u d' s').1,
      fetch_save_snd_indep env u d d' s s']

/-- The gathered link fetches bump the counter once per link, whatever
their outcomes. -/
theorem run_saves_fetchCounter (env : String → LinkFetch) (us : List String) (d : Dir)
    (s : CrawlState) : (run_saves env us d s).1.fetchCounter = s.fetchCounter + us.length := by
  induction us generalizing s with
  | nil => rfl
  | cons u rest ih =>
    simp only [run_saves, ih, fetch_save_fetchCounter, List.length_cons]
    omega

/-- The gathered link fetches create no directory. -/
theorem run_saves_dirs (env : String → LinkFetch) (us : List String) (d : Dir)
    (s : CrawlState) : (run_saves env us d s).1.dirs = s.dirs := by
  induction us generalizing s with
  | nil => rfl
  | cons u rest ih => simp only [run_saves, ih, fetch_save_dirs]

/-- The gathered link fetches append no ledger row. -/
theorem run_saves_reports (env : String → LinkFetch) (us : List String) (d : Dir)
    (s : CrawlState) : (run_saves env us d s).1.reports = s.reports := by
  induction us generalizing s with
  | nil => rfl
  | cons u rest ih => simp only [run_saves, ih, fetch_save_reports]

/-- The gathered link fetches leave COLLECTED_STORIES unchanged. -/
theorem run_saves_collected (env : String → LinkFetch) (us : List String) (d : Dir)
    (s : CrawlState) : (run_saves env us d s).1.collected = s.collected := by
  induction us generalizing s with
  | nil => rfl
  | cons u rest ih => simp only [run_saves, ih, fetch_save_collected]

/-- Collected gather results are exactly the successful ones. -/
theorem collect_ok_eq_map (rs : List (Except Unit (Nat × Nat))) (cs : List (Nat × Nat))
    (h : collect_ok rs = some cs) : rs = cs.map Except.ok := by
  induction rs generalizing cs with
  | nil =>
    simp only [collect_ok, Option.some_inj] at h
    subst h
    rfl
  | cons r rest ih =>
    cases r with
    | error e => simp [collect_ok] at h
    | ok c =>
      simp only [collect_ok, Option.map_eq_some'] at h
      obtain ⟨cs', hcs', h2⟩ := h
      subst h2
      simp [ih cs' hcs']

/-- The value of a traversal depends only on the network environment and
the item tree: destination directory and starting state steer only where
side effects land. Proved jointly for an item and for a list of kids. -/
theorem walk_snd_indep_all (env : String → LinkFetch) :
    (∀ (t : ItemTree) (d : Dir) (s : CrawlState), ∀ (d' : Dir) (s' : CrawlState),
      (get_page_with_references env t d s).2 = (get_page_with_references env t d' s').2)
    ∧ (∀ (ts : List ItemTree) (d : Dir) (s : CrawlState), ∀ (d' : Dir) (s' : CrawlState),
      (walk_kids env ts d s).2 = (walk_kids env ts d' s').2) := by
  refine get_page_with_references.mutual_induct env
    (fun t d s => ∀ d' s', (get_page_with_references env t d s).2 = (get_page_with_references env t d' s').2)
    (fun ts d s => ∀ d' s', (walk_kids env ts d s).2 = (walk_kids env ts d' s').2)
    ?_ ?_ ?_ ?_ ?_ ?_ ?_ ?_ ?_ ?_
  · -- the item fetch raises
    intro d s pid fk ty ti u te kf
    dsimp only
    intro e h0 d' s'
    have h0r : (fetch_item_step fk s').2 = Except.error e :=
      (fetch_item_step_snd_indep fk s' s).trans h0
    cases kf <;> simp [get_page_with_references, h0, h0r]
  · -- the item fetch yields no object
    intro d s pid fk ty ti u te kf
    dsimp only
    intro h0 d' s'
    have h0r : (fetch_item_step fk s').2 = Except.ok false :=
      (fetch_item_step_snd_indep fk s' s).trans h0
    cases kf <;> simp [get_page_with_references, h0, h0r]
  · -- the kids field is absent
    intro d s pid fk ty ti u te
    dsimp only
    intro h0 d' s'
    have h0r : (fetch_item_step fk s').2 = Except.ok true :=
      (fetch_item_step_snd_indep fk s' s).trans h0
    simp [get_page_with_references, h0, h0r]
  · -- story branch, the story-page fetch raises
    intro d s pid fk ti u te
    dsimp only
    intro h0 ks e h2 d' s'
    have h0r : (fetch_item_step fk s').2 = Except.ok true :=
      (fetch_item_step_snd_indep fk s' s).trans h0
    have h2r : (fetch_save env (u.getD (story_page_url pid))
        (get_path_of_story d' (ti.getD "untitled") pid (fetch_item_step fk s').1).2
        (get_path_of_story d' (ti.getD "untitled") pid (fetch_item_step fk s').1).1).2
          = Except.error e :=
      (fetch_save_snd_indep env _ _ _ _ _).trans h2
    simp [get_page_with_references, h0, h0r, h2, h2r]
  · -- story branch, the story-page fetch returns
    intro d s pid fk ti u te
    dsimp only
    intro h0 ks a h2 ih d' s'
    have h0r : (fetch_item_step fk s').2 = Except.ok true :=
      (fetch_item_step_snd_indep fk s' s).trans h0
    have h2r : (fetch_save env (u.getD (story_page_url pid))
        (get_path_of_story d' (ti.getD "untitled") pid (fetch_item_step fk s').1).2
        (get_path_of_story d' (ti.getD "untitled") pid (fetch_item_step fk s').1).1).2
          = Except.ok a :=
      (fetch_save_snd_indep env _ _ _ _ _).trans h2
    simp only [get_page_with_references, h0, h0r, h2, h2r]
    simp only [Option.some.injEq, reduceIte]
    exact congrArg (combine_results ks.length 0) (ih _ _)
  · -- comment branch, a link fetch raises
    intro d s pid fk ti u te
    dsimp only
    intro h0 ks h1 hne d' s'
    have h0r : (fetch_item_step fk s').2 = Except.ok true :=
      (fetch_item_step_snd_indep fk s' s).trans h0
    have h1r : (run_saves env (find_refs (html_unescape (te.getD ""))).eraseDups d'
        (fetch_item_step fk s').1).2 = true :=
      (run_saves_snd_indep env _ _ _ _ _).trans h1
    simp [get_page_with_references, h0, h0r, h1, h1r]
  · -- comment branch, all link fetches return
    intro d s pid fk ti u te
    dsimp only
    intro h0 ks h1 hne ih d' s'
    have h0r : (fetch_item_step fk s').2 = Except.ok true :=
      (fetch_item_step_snd_indep fk s' s).trans h0
    have h1' : (run_saves env (find_refs (html_unescape (te.getD ""))).eraseDups d
        (fetch_item_step fk s).1).2 = false := by
      revert h1
      cases (run_saves env (find_refs (html_unescape (te.getD ""))).eraseDups d
        (fetch_item_step fk s).1).2 <;> simp
    have h1r : (run_saves env (find_refs (html_unescape (te.getD ""))).eraseDups d'
        (fetch_item_step fk s').1).2 = false :=
      (run_saves_snd_indep env _ _ _ _ _).trans h1'
    simp only [get_page_with_references, h0, h0r, h1', h1r]
    simp only [Bool.false_eq_true, reduceIte, Option.some.injEq, String.reduceEq]
    exact congrArg (combine_results ks.length (find_refs (html_unescape (te.getD ""))).eraseDups.length) (ih _ _)
  · -- neither story nor comment
    intro d s pid fk ty ti u te
    dsimp only
    intro h0 ks hne1 hne2 ih d' s'
    have h0r : (fetch_item_step fk s').2 = Except.ok true :=
      (fetch_item_step_snd_indep fk s' s).trans h0
    simp only [get_page_with_references, h0, h0r]
    simp only [hne1, hne2, reduceIte]
    exact congrArg (combine_results ks.length 0) (ih _ _)
  · -- no kids
    intro d s d' s'
    rfl
  · -- one kid and the rest
    intro d s t rest
    dsimp only
    intro ih1 ih2 d' s'
    simp only [walk_kids]
    rw [ih1 d' s', ih2 d' (get_page_with_references env t d' s').1]


/-- The result of any traversal call equals its reference evaluation. -/
theorem walk_snd_eq_result (env : String → LinkFetch) (t : ItemTree) (d : Dir)
    (s : CrawlState) : (get_page_with_references env t d s).2 = walk_result env t :=
  (walk_snd_indep_all env).1 t d s (Dir.base "") cleanState

/-- The gathered kid results are the reference evaluations of the kids,
in order. -/
theorem walk_kids_snd_map (env : String → LinkFetch) (ts : List ItemTree) (d : Dir)
    (s : CrawlState) : (walk_kids env ts d s).2 = ts.map (walk_result env) := by
  induction ts generalizing d s with
  | nil => rfl
  | cons t rest ih =>
    simp only [walk_kids, List.map_cons, walk_snd_eq_result, ih]

/-- The fetch counter never decreases across a traversal: every step of
get_page_with_references either leaves it unchanged or increments it. -/
theorem walk_counter_mono_all (env : String → LinkFetch) :
    (∀ (t : ItemTree) (d : Dir) (s : CrawlState),
      s.fetchCounter ≤ (get_page_with_references env t d s).1.fetchCounter)
    ∧ (∀ (ts : List ItemTree) (d : Dir) (s : CrawlState),
      s.fetchCounter ≤ (walk_kids env ts d s).1.fetchCounter) := by
  refine get_page_with_references.mutual_induct env
    (fun t d s => s.fetchCounter ≤ (get_page_with_references env t d s).1.fetchCounter)
    (fun ts d s => s.fetchCounter ≤ (walk_kids env ts d s).1.fetchCounter)
    ?_ ?_ ?_ ?_ ?_ ?_ ?_ ?_ ?_ ?_
  · intro d s pid fk ty ti u te kf
    dsimp only
    intro e h0
    cases kf <;> simp [get_page_with_references, h0, fetch_item_step_fst]
  · intro d s pid fk ty ti u te kf
    dsimp only
    intro h0
    cases kf <;> simp [get_page_with_references, h0, fetch_item_step_fst]
  · intro d s pid fk ty ti u te
    dsimp only
    intro h0
    simp [get_page_with_references, h0, fetch_item_step_fst]
  · intro d s pid fk ti u te
    dsimp only
    intro h0 ks e h2
    simp only [get_page_with_references, h0, h2]
    simp only [Option.some.injEq, reduceIte]
    have hc1 : (fetch_save env (u.getD (story_page_url pid))
        (get_path_of_story d (ti.getD "untitled") pid (fetch_item_step fk s).1).2
        (get_path_of_story d (ti.getD "untitled") pid (fetch_item_step fk s).1).1).1.fetchCounter
          = (get_path_of_story d (ti.getD "untitled") pid (fetch_item_step fk s).1).1.fetchCounter + 1 :=
      fetch_save_fetchCounter env _ _ _
    have hc2 := get_path_of_story_fetchCounter d (ti.getD "untitled") pid (fetch_item_step fk s).1
    have hc4 : (fetch_item_step fk s).1.fetchCounter = s.fetchCounter + 1 := by
      rw [fetch_item_step_fst]
    omega
  · intro d s pid fk ti u te
    dsimp only
    intro h0 ks a h2 ih
    simp only [get_page_with_references, h0, h2]
    simp only [Option.some.injEq, reduceIte]
    have hc1 : (fetch_save env (u.getD (story_page_url pid))
        (get_path_of_story d (ti.getD "untitled") pid (fetch_item_step fk s).1).2
        (get_path_of_story d (ti.getD "untitled") pid (fetch_item_step fk s).1).1).1.fetchCounter
          = (get_path_of_story d (ti.getD "untitled") pid (fetch_item_step fk s).1).1.fetchCounter + 1 :=
      fetch_save_fetchCounter env _ _ _
    have hc2 := get_path_of_story_fetchCounter d (ti.getD "untitled") pid (fetch_item_step fk s).1
    have hc4 : (fetch_item_step fk s).1.fetchCounter = s.fetchCounter + 1 := by
      rw [fetch_item_step_fst]
    omega
  · intro d s pid fk ti u te
    dsimp only
    intro h0 ks h1 hne
    simp only [get_page_with_references, h0]
    simp only [Option.some.injEq, String.reduceEq, reduceIte, h1]
    have hc1 := run_saves_fetchCounter env (find_refs (html_unescape (te.getD ""))).eraseDups d
      (fetch_item_step fk s).1
    have hc4 : (fetch_item_step fk s).1.fetchCounter = s.fetchCounter + 1 := by
      rw [fetch_item_step_fst]
    omega
  · intro d s pid fk ti u te
    dsimp only
    intro h0 ks h1 hne ih
    have h1' : (run_saves env (find_refs (html_unescape (te.getD ""))).eraseDups d
        (fetch_item_step fk s).1).2 = false := by
      revert h1
      cases (run_saves env (find_refs (html_unescape (te.getD ""))).eraseDups d
        (fetch_item_step fk s).1).2 <;> simp
    simp only [get_page_with_references, h0, h1']
    simp only [Option.some.injEq, String.reduceEq, reduceIte, Bool.false_eq_true]
    have hc1 := run_saves_fetchCounter env (find_refs (html_unescape (te.getD ""))).eraseDups d
      (fetch_item_step fk s).1
    have hc4 : (fetch_item_step fk s).1.fetchCounter = s.fetchCounter + 1 := by
      rw [fetch_item_step_fst]
    omega
  · intro d s pid fk ty ti u te
    dsimp only
    intro h0 ks hne1 hne2 ih
    simp only [get_page_with_references, h0, hne1, hne2, reduceIte]
    have hc4 : (fetch_item_step fk s).1.fetchCounter = s.fetchCounter + 1 := by
      rw [fetch_item_step_fst]
    omega
  · intro d s
    exact Nat.le_refl _
  · intro d s t rest
    dsimp only
    intro ih1 ih2
    simp only [walk_kids]
    omega



/-- StoreOK depends only on the directory, ledger and collected
components. -/
theorem StoreOK_congr (s s' : CrawlState) (hok : StoreOK s) (hd : s'.dirs = s.dirs)
    (hr : s'.reports = s.reports) (hc : s'.collected = s.collected) : StoreOK s' := by
  obtain ⟨h1, h2, h3⟩ := hok
  exact ⟨hd.trans (h1.trans (by rw [hr])), hc.trans (h2.trans (by rw [hr])), hd ▸ h3⟩

/-- get_path_of_story keeps the store well-formed: it either changes
nothing or appends the directory, its ledger row and its collected id
together, and it only creates a directory that did not exist. -/
theorem get_path_of_story_StoreOK (d : Dir) (t : String) (id : Nat) (s : CrawlState)
    (hok : StoreOK s) : StoreOK (get_path_of_story d t id s).1 := by
  obtain ⟨h1, h2, h3⟩ := hok
  simp only [get_path_of_story]
  split
  · exact ⟨h1, h2, h3⟩
  · refine ⟨?_, ?_, ?_⟩
    · simp [h1]
    · simp [h2]
    · rename_i hnotin
      simp [List.nodup_append, h3]
      intro hmem
      exact hnotin hmem

/-- The JSON-mode fetch step touches only the counter. -/
theorem fetch_item_step_StoreOK (fk : FetchKind) (s : CrawlState) (hok : StoreOK s) :
    StoreOK (fetch_item_step fk s).1 := by
  refine StoreOK_congr s _ hok ?_ ?_ ?_ <;> rw [fetch_item_step_fst]

/-- Save-mode fetches touch only the counter and the file log. -/
theorem fetch_save_StoreOK (env : String → LinkFetch) (u : String) (d : Dir)
    (s : CrawlState) (hok : StoreOK s) : StoreOK (fetch_save env u d s).1 :=
  StoreOK_congr s _ hok (fetch_save_dirs env u d s) (fetch_save_reports env u d s)
    (fetch_save_collected env u d s)

/-- Gathered link fetches touch only the counter and the file log. -/
theorem run_saves_StoreOK (env : String → LinkFetch) (us : List String) (d : Dir)
    (s : CrawlState) (hok : StoreOK s) : StoreOK (run_saves env us d s).1 :=
  StoreOK_congr s _ hok (run_saves_dirs env us d s) (run_saves_reports env us d s)
    (run_saves_collected env us d s)

/-- A traversal keeps the store well-formed: directories stay
duplicate-free and in one-to-one ordered correspondence with ledger rows,
and COLLECTED_STORIES stays the list of recorded ids. Proved jointly for
an item and for a list of kids. -/
theorem walk_StoreOK_all (env : String → LinkFetch) :
    (∀ (t : ItemTree) (d : Dir) (s : CrawlState),
      StoreOK s → StoreOK (get_page_with_references env t d s).1)
    ∧ (∀ (ts : List ItemTree) (d : Dir) (s : CrawlState),
      StoreOK s → StoreOK (walk_kids env ts d s).1) := by
  refine get_page_with_references.mutual_induct env
    (fun t d s => StoreOK s → StoreOK (get_page_with_references env t d s).1)
    (fun ts d s => StoreOK s → StoreOK (walk_kids env ts d s).1)
    ?_ ?_ ?_ ?_ ?_ ?_ ?_ ?_ ?_ ?_
  · intro d s pid fk ty ti u te kf
    dsimp only
    intro e h0 hok
    cases kf <;> simp [get_page_with_references, h0] <;>
      exact fetch_item_step_StoreOK fk s hok
  · intro d s pid fk ty ti u te kf
    dsimp only
    intro h0 hok
    cases kf <;> simp [get_page_with_references, h0] <;>
      exact fetch_item_step_StoreOK fk s hok
  · intro d s pid fk ty ti u te
    dsimp only
    intro h0 hok
    simp [get_page_with_references, h0]
    exact fetch_item_step_StoreOK fk s hok
  · intro d s pid fk ti u te
    dsimp only
    intro h0 ks e h2 hok
    simp only [get_page_with_references, h0, h2]
    simp only [Option.some.injEq, reduceIte]
    exact fetch_save_StoreOK env _ _ _
      (get_path_of_story_StoreOK d _ pid _ (fetch_item_step_StoreOK fk s hok))
  · intro d s pid fk ti u te
    dsimp only
    intro h0 ks a h2 ih hok
    simp only [get_page_with_references, h0, h2]
    simp only [Option.some.injEq, reduceIte]
    exact ih (fetch_save_StoreOK env _ _ _
      (get_path_of_story_StoreOK d _ pid _ (fetch_item_step_StoreOK fk s hok)))
  · intro d s pid fk ti u te
    dsimp only
    intro h0 ks h1 hne hok
    simp only [get_page_with_references, h0]
    simp only [Option.some.injEq, String.reduceEq, reduceIte, h1]
    exact run_saves_StoreOK env _ _ _ (fetch_item_step_StoreOK fk s hok)
  · intro d s pid fk ti u te
    dsimp only
    intro h0 ks h1 hne ih hok
    have h1' : (run_saves env (find_refs (html_unescape (te.getD ""))).eraseDups d
        (fetch_item_step fk s).1).2 = false := by
      revert h1
      cases (run_saves env (find_refs (html_unescape (te.getD ""))).eraseDups d
        (fetch_item_step fk s).1).2 <;> simp
    simp only [get_page_with_references, h0, h1']
    simp only [Option.some.injEq, String.reduceEq, reduceIte, Bool.false_eq_true]
    exact ih (run_saves_StoreOK env _ _ _ (fetch_item_step_StoreOK fk s hok))
  · intro d s pid fk ty ti u te
    dsimp only
    intro h0 ks hne1 hne2 ih hok
    simp only [get_page_with_references, h0, hne1, hne2, reduceIte]
    exact ih (fetch_item_step_StoreOK fk s hok)
  · intro d s hok
    exact hok
  · intro d s t rest
    dsimp only
    intro ih1 ih2 hok
    simp only [walk_kids]
    exact ih2 (ih1 hok)



/-- Gathered link fetches none of which hits the propagating timeout do
not raise. -/
theorem run_saves_snd_false (env : String → LinkFetch) (us : List String) (d : Dir)
    (s : CrawlState) (h : ∀ u ∈ us, env u ≠ LinkFetch.timeout) :
    (run_saves env us d s).2 = false := by
  induction us generalizing s with
  | nil => rfl
  | cons u rest ih =>
    simp only [run_saves]
    rw [ih _ (fun v hv => h v (List.mem_cons_of_mem u hv)),
      fetch_save_ok_of_ne_timeout env u d s (h u (List.mem_cons_self u rest))]
    rfl

/-- C6: for an id whose item fetch returns null — and likewise for an
item whose response has no kids field — the traversal returns exactly
(0, 0), performs no recursion and makes no fetch attempt beyond the one
fetch of the item itself: the state changes only by that single counter
increment. -/
theorem c6_missing_item_base_case :
    ∀ (env : String → LinkFetch) (story_dir : Dir) (s : CrawlState) (post_id : Nat)
      (itype title iurl text : Option String) (kids : Option (List ItemTree)),
      get_page_with_references env
          (ItemTree.mk post_id FetchKind.null itype title iurl text kids) story_dir s
        = ({ s with fetchCounter := s.fetchCounter + 1 }, Except.ok (0, 0))
      ∧ get_page_with_references env
          (ItemTree.mk post_id FetchKind.ok itype title iurl text none) story_dir s
        = ({ s with fetchCounter := s.fetchCounter + 1 }, Except.ok (0, 0)) := by
  intro env d s pid ty ti u te kids
  constructor
  · cases kids <;> rfl
  · rfl

/-- C10: the destination-filename derivation (strip unsafe characters,
truncate to 20) is not injective — two distinct URLs share one filename —
and saving the second artifact under a shared filename overwrites the
first. -/
theorem c10_filename_collision_overwrite :
    (∃ u v : String, u ≠ v ∧ save_filename u = save_filename v)
    ∧ read_file
        (save_content_to_disk (some "second") "https://a.com//x" (Dir.base "data")
          (save_content_to_disk (some "first") "https://a.com/x" (Dir.base "data") cleanState))
        (Dir.base "data", save_filename "https://a.com/x") = some "second" := by
  exact ⟨⟨"https://a.com/x", "https://a.com//x", by decide, by decide⟩, by decide⟩

/-- C1: the except clause of URLFetcher.fetch sits inside the
async_timeout block, so the deadline TimeoutError — raised by the block's
own exit — escapes fetch; a single timed-out link fetch therefore aborts
the parent's whole aggregation (first conjunct), even though the sibling
subtree on its own walks to (0, 0) (second conjunct), and the abort
propagates through the gathered tasks to the whole cycle (third
conjunct). -/
theorem c1_uncaught_timeout_aborts_parent :
    (get_page_with_references
        (fun u => if u = "https://x.test/p" then LinkFetch.timeout else LinkFetch.ok (some "page"))
        (ItemTree.mk 11 FetchKind.ok (some "comment") none none
          (some "<a href=\"https://x.test/p\">link</a>")
          (some [ItemTree.mk 12 FetchKind.ok (some "comment") none none (some "hello") none]))
        (Dir.base "data") cleanState).2 = Except.error ()
    ∧ (get_page_with_references
        (fun u => if u = "https://x.test/p" then LinkFetch.timeout else LinkFetch.ok (some "page"))
        (ItemTree.mk 12 FetchKind.ok (some "comment") none none (some "hello") none)
        (Dir.base "data") cleanState).2 = Except.ok (0, 0)
    ∧ (get_top_stories_with_references
        (fun u => if u = "https://x.test/p" then LinkFetch.timeout else LinkFetch.ok (some "page"))
        (fun _ => ItemTree.mk 11 FetchKind.ok (some "comment") none none
          (some "<a href=\"https://x.test/p\">link</a>")
          (some [ItemTree.mk 12 FetchKind.ok (some "comment") none none (some "hello") none]))
        (TopFetch.ok [11]) 30 (Dir.base "data") cleanState).2 = Except.error () := by
  exact ⟨rfl, rfl, rfl⟩

/-- C2, counterexample: with the kids field present and empty, a comment
whose two extracted links include one whose fetch hits the propagating
timeout makes the traversal raise instead of returning reference_count 2
(first conjunct); and with the kids field absent, the base case returns
(0, 0) after the single item fetch, extracting nothing and fetching
nothing further (second conjunct). -/
theorem c2_counterexample :
    (get_page_with_references
        (fun u => if u = "https://a.com" then LinkFetch.timeout else LinkFetch.ok (some "page"))
        (ItemTree.mk 21 FetchKind.ok (some "comment") none none (some two_link_text) (some []))
        (Dir.base "data") cleanState).2 = Except.error ()
    ∧ get_page_with_references (fun _ => LinkFetch.ok (some "page"))
        (ItemTree.mk 22 FetchKind.ok (some "comment") none none (some two_link_text) none)
        (Dir.base "data") cleanState
      = ({ cleanState with fetchCounter := 1 }, Except.ok (0, 0)) := by
  exact ⟨rfl, rfl⟩



/-- C2, amended: for a comment item whose kids field is the empty list
and whose text holds exactly the two distinct anchor hrefs https://a.com
and https://b.com, the traversal always issues exactly 2 fetch attempts
beyond the item fetch (the counter grows by 3 whatever the outcomes),
and, provided neither link fetch raises the propagating TimeoutError, it
returns reference_count = 2 — independently of whether those fetches
succeeded, failed with a caught timeout, or saved nothing. -/
theorem c2_reference_counting (env : String → LinkFetch) (d : Dir) (s : CrawlState) :
    (get_page_with_references env
        (ItemTree.mk 21 FetchKind.ok (some "comment") none none (some two_link_text) (some []))
        d s).1.fetchCounter = s.fetchCounter + 3
    ∧ (env "https://a.com" ≠ LinkFetch.timeout → env "https://b.com" ≠ LinkFetch.timeout →
        (get_page_with_references env
          (ItemTree.mk 21 FetchKind.ok (some "comment") none none (some two_link_text) (some []))
          d s).2 = Except.ok (0, 2)) := by
  have hrefs : (find_refs (html_unescape ((some two_link_text).getD ""))).eraseDups
      = ["https://a.com", "https://b.com"] := rfl
  constructor
  · have hsplit : (get_page_with_references env
        (ItemTree.mk 21 FetchKind.ok (some "comment") none none (some two_link_text) (some []))
        d s).1
        = (run_saves env ["https://a.com", "https://b.com"] d
            { s with fetchCounter := s.fetchCounter + 1 }).1 := by
      simp only [get_page_with_references, fetch_item_step, hrefs, Option.some.injEq,
        String.reduceEq, reduceIte]
      split <;> rfl
    rw [hsplit, run_saves_fetchCounter]
    rfl
  · intro ha hb
    have hfalse : (run_saves env ["https://a.com", "https://b.com"] d
        { s with fetchCounter := s.fetchCounter + 1 }).2 = false := by
      refine run_saves_snd_false env _ d _ ?_
      intro v hv
      simp only [List.mem_cons, List.not_mem_nil, or_false] at hv
      rcases hv with rfl | rfl
      · exact ha
      · exact hb
    simp only [get_page_with_references, fetch_item_step, hrefs, Option.some.injEq,
      String.reduceEq, reduceIte, hfalse]
    rfl

/-- C5: whenever a traversal of an item with a kids field returns a
pair, the comment count is the number of direct kids plus the sum of the
kids' comment counts, and the reference count is the item's own
extracted-link count plus the sum of the kids' reference counts. -/
theorem c5_aggregation_recurrence (env : String → LinkFetch) (post_id : Nat)
    (itype title iurl text : Option String) (ks : List ItemTree) (d : Dir) (s : CrawlState)
    (c r : Nat)
    (h : (get_page_with_references env
        (ItemTree.mk post_id FetchKind.ok itype title iurl text (some ks)) d s).2
        = Except.ok (c, r)) :
    ∃ cs : List (Nat × Nat), ks.map (walk_result env) = cs.map Except.ok
      ∧ c = ks.length + (cs.map Prod.fst).sum
      ∧ r = own_ref_count itype text + (cs.map Prod.snd).sum := by
  have hcomb : ∀ rs : List (Except Unit (Nat × Nat)),
      combine_results ks.length (own_ref_count itype text) rs = Except.ok (c, r) →
      (walk_kids env ks d s).2 = rs →
      ∃ cs : List (Nat × Nat), ks.map (walk_result env) = cs.map Except.ok
        ∧ c = ks.length + (cs.map Prod.fst).sum
        ∧ r = own_ref_count itype text + (cs.map Prod.snd).sum := by
    intro rs hco hrs
    rcases hcok : collect_ok rs with _ | cs
    · rw [combine_results, hcok] at hco
      exact absurd hco (by simp)
    · rw [combine_results, hcok] at hco
      refine ⟨cs, ?_, ?_, ?_⟩
      · rw [← walk_kids_snd_map env ks d s, hrs]
        exact collect_ok_eq_map rs cs hcok
      · exact (Prod.mk.injEq _ _ _ _ ▸ Except.ok.injEq _ _ ▸ hco).1.symm
      · exact (Prod.mk.injEq _ _ _ _ ▸ Except.ok.injEq _ _ ▸ hco).2.symm
  by_cases hty1 : itype = some "story"
  · have hown : own_ref_count itype text = 0 := by
      simp [own_ref_count, hty1]
    simp only [get_page_with_references, fetch_item_step, hty1, reduceIte] at h
    rcases hsv : (fetch_save env (iurl.getD (story_page_url post_id))
        (get_path_of_story d (title.getD "untitled") post_id
          { s with fetchCounter := s.fetchCounter + 1 }).2
        (get_path_of_story d (title.getD "untitled") post_id
          { s with fetchCounter := s.fetchCounter + 1 }).1).2 with e | a
    · rw [hsv] at h
      exact absurd h (by simp)
    · rw [hsv] at h
      refine hcomb _ (by rw [hown]; exact h) ?_
      rw [walk_kids_snd_map, walk_kids_snd_map]
  · by_cases hty2 : itype = some "comment"
    · have hown : own_ref_count itype text
          = (find_refs (html_unescape (text.getD ""))).eraseDups.length := by
        simp [own_ref_count, hty2]
      simp only [get_page_with_references, fetch_item_step, hty1, hty2, reduceIte] at h
      rcases hrun : (run_saves env (find_refs (html_unescape (text.getD ""))).eraseDups d
          { s with fetchCounter := s.fetchCounter + 1 }).2 with _ | _
      · rw [hrun] at h
        simp only [Bool.false_eq_true, reduceIte] at h
        refine hcomb _ (by rw [hown]; exact h) ?_
        rw [walk_kids_snd_map, walk_kids_snd_map]
      · rw [hrun] at h
        simp only [reduceIte] at h
        exact absurd h (by simp)
    · have hown : own_ref_count itype text = 0 := by
        simp [own_ref_count, hty2]
      simp only [get_page_with_references, fetch_item_step, hty1, hty2, reduceIte] at h
      refine hcomb _ (by rw [hown]; exact h) ?_
      rw [walk_kids_snd_map, walk_kids_snd_map]

/-- C5, witness: the specification's synthetic tree — a story root with 2
kids, each a leaf with no kids field — walks to (comment_count,
reference_count) = (2, 0), and the recurrence instantiates on it. -/
theorem c5_aggregation_recurrence_witness :
    walk_result (fun _ => LinkFetch.ok (some "page"))
        (ItemTree.mk 1 FetchKind.ok (some "story") (some "T") (some "https://s.test/a") none
          (some [ItemTree.mk 2 FetchKind.ok (some "comment") none none (some "hi") none,
            ItemTree.mk 3 FetchKind.ok (some "comment") none none (some "yo") none]))
      = Except.ok (2, 0)
    ∧ (∃ cs : List (Nat × Nat),
        [ItemTree.mk 2 FetchKind.ok (some "comment") none none (some "hi") none,
          ItemTree.mk 3 FetchKind.ok (some "comment") none none (some "yo") none].map
            (walk_result (fun _ => LinkFetch.ok (some "page"))) = cs.map Except.ok
        ∧ 2 = [ItemTree.mk 2 FetchKind.ok (some "comment") none none (some "hi") none,
            ItemTree.mk 3 FetchKind.ok (some "comment") none none (some "yo") none].length
              + (cs.map Prod.fst).sum
        ∧ 0 = own_ref_count (some "story") none + (cs.map Prod.snd).sum) :=
  ⟨rfl,
    c5_aggregation_recurrence (fun _ => LinkFetch.ok (some "page")) 1 (some "story") (some "T")
      (some "https://s.test/a") none
      [ItemTree.mk 2 FetchKind.ok (some "comment") none none (some "hi") none,
        ItemTree.mk 3 FetchKind.ok (some "comment") none none (some "yo") none]
      (Dir.base "") cleanState 2 0 rfl⟩

/-- C9: every invocation of URLFetcher.fetch — JSON mode or save mode —
increments the fetcher's counter by exactly one whatever the outcome; the
counter never decreases across a traversal; and a cycle's result is
independent of the counter it starts from, because
get_top_stories_with_references builds a fresh URLFetcher whose counter
starts at zero. -/
theorem c9_fetch_counter_discipline :
    (∀ (fk : FetchKind) (s : CrawlState),
      (fetch_item_step fk s).1.fetchCounter = s.fetchCounter + 1)
    ∧ (∀ (env : String → LinkFetch) (url : String) (d : Dir) (s : CrawlState),
      (fetch_save env url d s).1.fetchCounter = s.fetchCounter + 1)
    ∧ (∀ (env : String → LinkFetch) (t : ItemTree) (d : Dir) (s : CrawlState),
      s.fetchCounter ≤ (get_page_with_references env t d s).1.fetchCounter)
    ∧ (∀ (env : String → LinkFetch) (world : Nat → ItemTree) (top : TopFetch) (limit : Nat)
        (p : Dir) (s : CrawlState) (n : Nat),
      get_top_stories_with_references env world top limit p { s with fetchCounter := n }
        = get_top_stories_with_references env world top limit p s) := by
  refine ⟨?_, fetch_save_fetchCounter, fun env t d s => (walk_counter_mono_all env).1 t d s, ?_⟩
  · intro fk s
    rw [fetch_item_step_fst]
  · intro env world top limit p s n
    rfl



/-- cleanState is a well-formed store at every destination. -/
theorem StoreInv_clean (d : Dir) : StoreInv d cleanState :=
  ⟨rfl, by intro r hr; exact absurd hr (List.not_mem_nil r), List.nodup_nil⟩

/-- get_path_of_story at a fixed destination preserves per-destination
store well-formedness. -/
theorem get_path_of_story_StoreInv (d : Dir) (t : String) (id : Nat) (s : CrawlState)
    (h : StoreInv d s) : StoreInv d (get_path_of_story d t id s).1 := by
  obtain ⟨h1, h2, h3⟩ := h
  simp only [get_path_of_story]
  split
  · exact ⟨h1, h2, h3⟩
  · rename_i hnotin
    refine ⟨by simp [h1], ?_, ?_⟩
    · intro r hr
      rcases List.mem_append.mp hr with hmem | hmem
      · exact h2 r hmem
      · rw [List.mem_singleton.mp hmem]
    · simp only [List.map_append, List.map_cons, List.map_nil, List.nodup_append,
        List.nodup_cons, List.nodup_nil, and_true, List.not_mem_nil, not_false_iff,
        List.Disjoint]
      refine ⟨h3, trivial, ?_⟩
      intro a ha hmem
      rw [List.mem_singleton.mp hmem] at ha
      rcases List.mem_map.mp ha with ⟨r, hr, hrid⟩
      apply hnotin
      rw [h1]
      refine List.mem_map.mpr ⟨r, hr, ?_⟩
      rw [h2 r hr, hrid]

/-- Any sequence of store operations at one destination preserves
per-destination store well-formedness. -/
theorem run_store_ops_StoreInv (d : Dir) (ops : List (String × Nat)) (s : CrawlState)
    (h : StoreInv d s) : StoreInv d (run_store_ops d ops s) := by
  induction ops generalizing s with
  | nil => exact h
  | cons op rest ih => exact ih _ (get_path_of_story_StoreInv d op.1 op.2 s h)

/-- Under per-destination well-formedness the loaded ledger is exactly
the recorded ids. -/
theorem load_eq_of_StoreInv (d : Dir) (s : CrawlState) (h : StoreInv d s) :
    load_processed_stories_list d s = s.reports.map (fun r => r.2.1) := by
  unfold load_processed_stories_list
  congr 1
  refine List.filter_eq_self.mpr ?_
  intro r hr
  exact decide_eq_true (h.2.1 r hr)

/-- Under per-destination well-formedness a story directory exists iff
its id is in the loaded ledger. -/
theorem dirs_iff_ledger_of_StoreInv (d : Dir) (s : CrawlState) (h : StoreInv d s) (id : Nat) :
    Dir.sub d id ∈ s.dirs ↔ id ∈ load_processed_stories_list d s := by
  rw [load_eq_of_StoreInv d s h, h.1]
  simp only [List.mem_map]
  constructor
  · rintro ⟨r, hr, heq⟩
    simp only [Dir.sub.injEq] at heq
    exact ⟨r, hr, heq.2⟩
  · rintro ⟨r, hr, heq⟩
    refine ⟨r, hr, ?_⟩
    rw [h.2.1 r hr, heq]

/-- C7: over any sequence of Story Store operations from a fresh store at
one destination, a story directory exists iff its id is in the loaded
ledger, the loaded ledger has no duplicate ids, no directory was created
twice, path_for always returns the joined directory path, and a second
call for the same id — the serialization of two concurrent calls — is a
pure no-op returning the same path (so directory creation and ledger
append happen at most once per id). -/
theorem c7_store_invariants (d : Dir) (ops : List (String × Nat)) :
    (∀ id : Nat, Dir.sub d id ∈ (run_store_ops d ops cleanState).dirs
      ↔ id ∈ load_processed_stories_list d (run_store_ops d ops cleanState))
    ∧ (load_processed_stories_list d (run_store_ops d ops cleanState)).Nodup
    ∧ (run_store_ops d ops cleanState).dirs.Nodup
    ∧ (∀ (title : String) (id : Nat) (s : CrawlState),
        (get_path_of_story d title id s).2 = Dir.sub d id)
    ∧ (∀ (t1 t2 : String) (id : Nat) (s : CrawlState),
        get_path_of_story d t2 id (get_path_of_story d t1 id s).1
          = ((get_path_of_story d t1 id s).1, Dir.sub d id)) := by
  have hinv := run_store_ops_StoreInv d ops cleanState (StoreInv_clean d)
  refine ⟨dirs_iff_ledger_of_StoreInv d _ hinv, ?_, ?_, fun t => get_path_of_story_snd d t, ?_⟩
  · rw [load_eq_of_StoreInv d _ hinv]
    exact hinv.2.2
  · rw [hinv.1]
    have hmapeq : (run_store_ops d ops cleanState).reports.map (fun r => Dir.sub r.1 r.2.1)
        = ((run_store_ops d ops cleanState).reports.map (fun r => r.2.1)).map (Dir.sub d) := by
      rw [List.map_map]
      apply List.map_congr_left
      intro r hr
      simp [hinv.2.1 r hr]
    rw [hmapeq]
    refine List.Nodup.map ?_ hinv.2.2
    intro a b hab
    simpa using hab
  · intro t1 t2 id s
    by_cases hmem : Dir.sub d id ∈ s.dirs
    · simp [get_path_of_story, hmem]
    · simp [get_path_of_story, hmem]

/-- C8: a fresh store (no report file) loads as the empty ledger, and
after path_for materializes id 42 with title Foo, loading the
destination's ledger from the persisted rows yields 42. -/
theorem c8_ledger_round_trip :
    (∀ b : Dir, load_processed_stories_list b cleanState = [])
    ∧ (∀ (b : Dir) (s : CrawlState), Dir.sub b 42 ∉ s.dirs →
        42 ∈ load_processed_stories_list b ((get_path_of_story b "Foo" 42 s).1)) := by
  constructor
  · intro b
    rfl
  · intro b s hnot
    simp only [get_path_of_story]
    rw [if_neg hnot]
    refine List.mem_map.mpr ⟨(b, 42, "Foo"), List.mem_filter.mpr ⟨?_, by simp⟩, rfl⟩
    exact List.mem_append_right _ (List.mem_singleton_self _)

/-- C8, witness: the round trip at the default base path from a fresh
process. -/
theorem c8_ledger_round_trip_witness :
    load_processed_stories_list (Dir.base "./data") cleanState = []
    ∧ 42 ∈ load_processed_stories_list (Dir.base "./data")
        ((get_path_of_story (Dir.base "./data") "Foo" 42 cleanState).1) :=
  ⟨c8_ledger_round_trip.1 (Dir.base "./data"),
    c8_ledger_round_trip.2 (Dir.base "./data") cleanState (by decide)⟩



/-- A cycle keeps the store well-formed: its only state effects are the
counter bookkeeping and the gathered traversals. -/
theorem cycle_StoreOK (env : String → LinkFetch) (world : Nat → ItemTree) (ids : List Nat)
    (limit : Nat) (p : Dir) (s : CrawlState) (hok : StoreOK s) :
    StoreOK (get_top_stories_with_references env world (TopFetch.ok ids) limit p s).1 := by
  have hok1 : StoreOK ({ s with fetchCounter := 1 } : CrawlState) :=
    StoreOK_congr s _ hok rfl rfl rfl
  have hw := (walk_StoreOK_all env).2
    ((launch_set ids limit s.collected).map world) p { s with fetchCounter := 1 } hok1
  simp only [get_top_stories_with_references]
  split <;> exact hw

/-- The launch set is empty exactly when every candidate id is already
collected. -/
theorem launch_set_empty_iff (ids : List Nat) (limit : Nat) (collected : List Nat) :
    launch_set ids limit collected = [] ↔ ∀ id ∈ ids.take limit, id ∈ collected := by
  simp [launch_set, List.filter_eq_nil_iff]

/-- A cycle whose launch set is empty only refreshes the counter: the
top-list fetch happens and nothing else. -/
theorem cycle_of_launch_empty (env : String → LinkFetch) (world : Nat → ItemTree)
    (ids : List Nat) (limit : Nat) (p : Dir) (s : CrawlState)
    (hempty : launch_set ids limit s.collected = []) :
    get_top_stories_with_references env world (TopFetch.ok ids) limit p s
      = ({ s with fetchCounter := 1 }, Except.ok 1) := by
  have hempty' : launch_set ids limit ({ s with fetchCounter := 1 } : CrawlState).collected
      = [] := hempty
  simp only [get_top_stories_with_references, hempty', List.map_nil, walk_kids, any_raised,
    List.any_nil]
  rfl

/-- C4, counterexample: a top list holding one story with no kids field
(a story with no comments). Its first-cycle walk returns (0, 0) by the
base case without ever reaching the story branch, so nothing is recorded
in the ledger, and the second cycle's launch set is again the whole list,
not empty — the traversal for id 1 is re-launched. -/
theorem c4_counterexample :
    (get_top_stories_with_references (fun _ => LinkFetch.ok (some "page"))
        (fun _ => ItemTree.mk 1 FetchKind.ok (some "story") (some "T") none none none)
        (TopFetch.ok [1]) 30 (Dir.base "data") cleanState).2 = Except.ok 2
    ∧ launch_set [1] 30
        ((get_top_stories_with_references (fun _ => LinkFetch.ok (some "page"))
          (fun _ => ItemTree.mk 1 FetchKind.ok (some "story") (some "T") none none none)
          (TopFetch.ok [1]) 30 (Dir.base "data") cleanState).1.collected) = [1] :=
  ⟨rfl, rfl⟩

/-- C4, amended: across two consecutive cycles over an unchanged top
list, the store stays duplicate-free and in sync (no story directory is
re-created and no ledger row is re-appended); the second cycle's launch
set is exactly the ids of the first limit entries missing from the
ledger, hence empty iff every such id was registered during the first
cycle; and when it is empty the second cycle changes nothing but the
fresh fetch counter, performing only the top-list fetch and launching
zero traversals. -/
theorem c4_idempotent_dedup (env : String → LinkFetch) (world : Nat → ItemTree)
    (ids : List Nat) (limit : Nat) (p : Dir) (s : CrawlState) (hok : StoreOK s) :
    StoreOK (get_top_stories_with_references env world (TopFetch.ok ids) limit p s).1
    ∧ (launch_set ids limit
        (get_top_stories_with_references env world (TopFetch.ok ids) limit p s).1.collected = []
      ↔ ∀ id ∈ ids.take limit,
          id ∈ (get_top_stories_with_references env world (TopFetch.ok ids) limit p s).1.collected)
    ∧ (launch_set ids limit
        (get_top_stories_with_references env world (TopFetch.ok ids) limit p s).1.collected = [] →
        get_top_stories_with_references env world (TopFetch.ok ids) limit p
          (get_top_stories_with_references env world (TopFetch.ok ids) limit p s).1
        = ({ (get_top_stories_with_references env world (TopFetch.ok ids) limit p s).1 with
              fetchCounter := 1 }, Except.ok 1)) := by
  refine ⟨cycle_StoreOK env world ids limit p s hok, launch_set_empty_iff ids limit _, ?_⟩
  exact cycle_of_launch_empty env world ids limit p _

/-- C4, witness for the amended claim: one story with a kids field walks
to registration in cycle 1; the second cycle's launch set is empty and
the second cycle is a counter-only no-op. -/
theorem c4_idempotent_dedup_witness :
    StoreOK (get_top_stories_with_references (fun _ => LinkFetch.ok (some "page"))
        (fun _ => ItemTree.mk 1 FetchKind.ok (some "story") (some "T") none none (some []))
        (TopFetch.ok [1]) 30 (Dir.base "data") cleanState).1
    ∧ (launch_set [1] 30
        (get_top_stories_with_references (fun _ => LinkFetch.ok (some "page"))
          (fun _ => ItemTree.mk 1 FetchKind.ok (some "story") (some "T") none none (some []))
          (TopFetch.ok [1]) 30 (Dir.base "data") cleanState).1.collected = []
      ↔ ∀ id ∈ ([1] : List Nat).take 30,
          id ∈ (get_top_stories_with_references (fun _ => LinkFetch.ok (some "page"))
            (fun _ => ItemTree.mk 1 FetchKind.ok (some "story") (some "T") none none (some []))
            (TopFetch.ok [1]) 30 (Dir.base "data") cleanState).1.collected)
    ∧ (launch_set [1] 30
        (get_top_stories_with_references (fun _ => LinkFetch.ok (some "page"))
          (fun _ => ItemTree.mk 1 FetchKind.ok (some "story") (some "T") none none (some []))
          (TopFetch.ok [1]) 30 (Dir.base "data") cleanState).1.collected = [] →
        get_top_stories_with_references (fun _ => LinkFetch.ok (some "page"))
          (fun _ => ItemTree.mk 1 FetchKind.ok (some "story") (some "T") none none (some []))
          (TopFetch.ok [1]) 30 (Dir.base "data")
          (get_top_stories_with_references (fun _ => LinkFetch.ok (some "page"))
            (fun _ => ItemTree.mk 1 FetchKind.ok (some "story") (some "T") none none (some []))
            (TopFetch.ok [1]) 30 (Dir.base "data") cleanState).1
        = ({ (get_top_stories_with_references (fun _ => LinkFetch.ok (some "page"))
              (fun _ => ItemTree.mk 1 FetchKind.ok (some "story") (some "T") none none (some []))
              (TopFetch.ok [1]) 30 (Dir.base "data") cleanState).1 with
              fetchCounter := 1 }, Except.ok 1)) :=
  c4_idempotent_dedup (fun _ => LinkFetch.ok (some "page"))
    (fun _ => ItemTree.mk 1 FetchKind.ok (some "story") (some "T") none none (some []))
    [1] 30 (Dir.base "data") cleanState ⟨rfl, rfl, List.nodup_nil⟩



/-- C3, counterexample: with the crawler's connector at
connections_limit 3, four requests to two hosts (two per host) are all
admitted and simultaneously outstanding — more than 3 in total — because
the configured bound is limit_per_host, not a global ceiling. -/
theorem c3_counterexample :
    GateReachable (crawler_connector 3) ["b", "b", "a", "a"]
    ∧ 3 < (["b", "b", "a", "a"] : List String).length := by
  constructor
  · refine GateReachable.acquire "b" _ ?_ (by decide)
    refine GateReachable.acquire "b" _ ?_ (by decide)
    refine GateReachable.acquire "a" _ ?_ (by decide)
    exact GateReachable.acquire "a" _ GateReachable.init (by decide)
  · decide

/-- C3, amended: every fetch passes through the one shared session's
connector, but its admission rule is per host: in every reachable gate
state, at most K requests are outstanding to any single host (K the
configured connections_limit, default 3), while the total across hosts is
bounded only by the connector's default global cap of 100. -/
theorem c3_per_host_ceiling (K : Nat) (hK : 0 < K) (o : List String)
    (hreach : GateReachable (crawler_connector K) o) :
    (∀ h : String, o.count h ≤ K) ∧ o.length ≤ 100 := by
  induction hreach with
  | init => exact ⟨fun h => by simp, by simp⟩
  | acquire h o hr hadm ih =>
    simp only [admits, crawler_connector, Bool.and_eq_true, Bool.or_eq_true,
      decide_eq_true_eq] at hadm
    obtain ⟨hlen, hcnt⟩ := hadm
    have hlen' : o.length < 100 := by omega
    have hcnt' : o.count h < K := by omega
    constructor
    · intro h'
      have hih := ih.1 h'
      by_cases heq : h = h'
      · subst heq
        simp only [List.count_cons_self]
        omega
      · rw [List.count_cons_of_ne (fun hne => heq hne.symm)]
        exact hih
    · simp only [List.length_cons]
      omega
  | release o₁ o₂ h hr ih =>
    have hsub : List.Sublist (o₁ ++ o₂) (o₁ ++ h :: o₂) :=
      List.Sublist.append_left (List.sublist_cons_self h o₂) o₁
    exact ⟨fun h' => le_trans (hsub.count_le h') (ih.1 h'),
      le_trans hsub.length_le ih.2⟩

/-- C3, witness for the amended claim: the reachable four-outstanding
state satisfies the per-host bound 3 and the global default cap. -/
theorem c3_per_host_ceiling_witness :
    (∀ h : String, (["b", "b", "a", "a"] : List String).count h ≤ 3)
    ∧ (["b", "b", "a", "a"] : List String).length ≤ 100 :=
  c3_per_host_ceiling 3 (by decide) ["b", "b", "a", "a"]
    (GateReachable.acquire "b" _ (GateReachable.acquire "b" _ (GateReachable.acquire "a" _
      (GateReachable.acquire "a" _ GateReachable.init (by decide)) (by decide)) (by decide))
      (by decide))



/-- C2, witness for the amended claim: with every fetch succeeding, the
two-link comment with an empty kids list yields reference_count 2 and
exactly 3 counter increments (item fetch plus one per distinct link). -/
theorem c2_reference_counting_witness :
    (get_page_with_references (fun _ => LinkFetch.ok (some "page"))
        (ItemTree.mk 21 FetchKind.ok (some "comment") none none (some two_link_text) (some []))
        (Dir.base "data") cleanState).1.fetchCounter = cleanState.fetchCounter + 3
    ∧ (get_page_with_references (fun _ => LinkFetch.ok (some "page"))
        (ItemTree.mk 21 FetchKind.ok (some "comment") none none (some two_link_text) (some []))
        (Dir.base "data") cleanState).2 = Except.ok (0, 2) :=
  ⟨(c2_reference_counting (fun _ => LinkFetch.ok (some "page")) (Dir.base "data") cleanState).1,
    (c2_reference_counting (fun _ => LinkFetch.ok (some "page")) (Dir.base "data") cleanState).2
      (by decide) (by decide)⟩

end Ycrawler
